import Mathlib

/-!
Verification development for the RAG chatbot backend (`api.py`).

The backend is a FastAPI service: `process_documents` loads uploaded
PDF/DOCX/TXT files into tagged documents, splits and indexes them in a
Chroma collection named from the creation timestamp, and the `/upload`,
`/chat`, `/session/{id}` endpoints manage per-session state (an in-memory
dict from session id to vector store and chat history).  External library
calls (PDF/DOCX parsers, text splitter, Chroma, the LLM) are modelled as
abstract data / oracle parameters; everything the endpoints themselves do
is embedded faithfully below.
-/

namespace RagApi

/-! ## Python string primitives used by the code

Python `str` values are sequences of code points; we model the exact
operations `api.py` applies to them (`split(".")`, `[-1]`, `.lower()`,
`.strip()`, f-string rendering of an `int`) as executable functions on
Lean `String`/`List Char`. -/

/-- Python `str.split(sep)` for a one-character separator, on char lists.
`"".split(".") == [""]` and `"a.b".split(".") == ["a","b"]`, as in Python. -/
def splitOnCharAux (sep : Char) : List Char → List Char → List (List Char)
  | [], acc => [acc.reverse]
  | c :: rest, acc =>
    if c = sep then acc.reverse :: splitOnCharAux sep rest []
    else splitOnCharAux sep rest (c :: acc)

/-- ASCII lowering of one character, the fragment of Python `str.lower()`
relevant to file extensions. -/
def pyLowerChar (c : Char) : Char :=
  if 'A' ≤ c ∧ c ≤ 'Z' then Char.ofNat (c.toNat + 32) else c

/-- Python `str.lower()` (ASCII fragment). -/
def pyLower (s : String) : String := ⟨s.data.map pyLowerChar⟩

/-- The whitespace characters removed by Python `str.strip()`
(ASCII fragment: space, tab, newline, carriage return, vertical tab, form feed). -/
def pyIsSpace (c : Char) : Bool :=
  c = ' ' || c = '\t' || c = '\n' || c = '\r' || c = '\x0b' || c = '\x0c'

/-- Python `str.strip()`: drop leading and trailing whitespace. -/
def pyStrip (s : String) : String :=
  ⟨((s.data.dropWhile pyIsSpace).reverse.dropWhile pyIsSpace).reverse⟩

/-- Decimal digits of `n`, most significant first, as characters; the first
argument is recursion fuel (`n` itself is always enough). -/
def toDecimalAux : Nat → Nat → List Char
  | 0, _ => []
  | fuel + 1, n =>
    if n = 0 then [] else toDecimalAux fuel (n / 10) ++ [Nat.digitChar (n % 10)]

/-- Python `str(n)` / f-string rendering of a nonnegative `int`. -/
def pyIntStr (n : Nat) : String :=
  if n = 0 then "0" else ⟨toDecimalAux n n⟩

theorem toDecimalAux_eq (fuel : Nat) : ∀ n : Nat, n ≤ fuel →
    toDecimalAux fuel n = ((Nat.digits 10 n).map Nat.digitChar).reverse := by
  induction fuel with
  | zero =>
    intro n hn
    interval_cases n
    simp [toDecimalAux]
  | succ fuel ih =>
    intro n hn
    by_cases h0 : n = 0
    · subst h0; simp [toDecimalAux]
    · have hdiv : n / 10 ≤ fuel := by
        have : n / 10 < n := Nat.div_lt_self (Nat.pos_of_ne_zero h0) (by norm_num)
        omega
      rw [toDecimalAux, if_neg h0, ih _ hdiv,
        Nat.digits_def' (by norm_num : (1:ℕ) < 10) (Nat.pos_of_ne_zero h0)]
      simp

theorem digitChar_injOn : ∀ a < 10, ∀ b < 10, Nat.digitChar a = Nat.digitChar b → a = b := by
  decide

theorem map_digitChar_inj : ∀ l₁ l₂ : List Nat, (∀ x ∈ l₁, x < 10) → (∀ x ∈ l₂, x < 10) →
    l₁.map Nat.digitChar = l₂.map Nat.digitChar → l₁ = l₂ := by
  intro l₁
  induction l₁ with
  | nil => intro l₂ _ _ h; cases l₂ <;> simp_all
  | cons a l ih =>
    intro l₂ h₁ h₂ h
    cases l₂ with
    | nil => simp at h
    | cons b l' =>
      simp only [List.map_cons, List.cons.injEq] at h
      have hab : a = b :=
        digitChar_injOn a (h₁ a (by simp)) b (h₂ b (by simp)) h.1
      have := ih l' (fun x hx => h₁ x (by simp [hx])) (fun x hx => h₂ x (by simp [hx])) h.2
      simp [hab, this]

theorem string_data_inj {s t : String} (h : s.data = t.data) : s = t :=
  congrArg String.mk h

theorem pyIntStr_data (n : Nat) (h0 : n ≠ 0) :
    (pyIntStr n).data = ((Nat.digits 10 n).map Nat.digitChar).reverse := by
  simp [pyIntStr, h0, toDecimalAux_eq n n le_rfl]

theorem pyIntStr_injective : Function.Injective pyIntStr := by
  have digits_ne : ∀ n : Nat, n ≠ 0 → Nat.digits 10 n ≠ [0] := by
    intro n h0 hd
    have hn := Nat.ofDigits_digits 10 n
    rw [hd] at hn
    simp [Nat.ofDigits] at hn
    exact h0 hn.symm
  have zero_case : ∀ n : Nat, n ≠ 0 → pyIntStr 0 ≠ pyIntStr n := by
    intro n h0 h
    have hdata := congrArg String.data h
    rw [pyIntStr_data n h0] at hdata
    have h0d : (pyIntStr 0).data = ['0'] := rfl
    rw [h0d] at hdata
    have hmap : (Nat.digits 10 n).map Nat.digitChar = ['0'] := by
      have := congrArg List.reverse hdata
      simpa using this.symm
    have hdig : Nat.digits 10 n = [0] :=
      map_digitChar_inj _ [0] (fun x hx => Nat.digits_lt_base (by norm_num) hx)
        (by simp) (by simpa using hmap)
    exact digits_ne n h0 hdig
  intro m n h
  by_cases hm0 : m = 0 <;> by_cases hn0 : n = 0
  · simp [hm0, hn0]
  · exact absurd (by rw [hm0] at h; exact h) (zero_case n hn0)
  · exact absurd (by rw [hn0] at h; exact h.symm) (zero_case m hm0)
  · have hdata := congrArg String.data h
    rw [pyIntStr_data m hm0, pyIntStr_data n hn0] at hdata
    have hmaps := List.reverse_injective hdata
    have hdig := map_digitChar_inj _ _ (fun x hx => Nat.digits_lt_base (by norm_num) hx)
      (fun x hx => Nat.digits_lt_base (by norm_num) hx) hmaps
    calc m = Nat.ofDigits 10 (Nat.digits 10 m) := (Nat.ofDigits_digits 10 m).symm
      _ = Nat.ofDigits 10 (Nat.digits 10 n) := by rw [hdig]
      _ = n := Nat.ofDigits_digits 10 n

/-! ## Data model

Uploaded files carry a filename and raw bytes; the code parses the bytes
with a library chosen by the filename extension.  We model the bytes by
what each library call would produce on them: `pdfParse` is the per-page
text `PyPDFLoader(path).load()` extracts (`none` when the parser raises),
`docxParse` the paragraph texts `docx.Document(path).paragraphs` yields
(`none` when it raises), and `txtRead` the result of
`open(path, encoding="utf-8", errors="ignore").read()`, which never raises. -/

/-- A `langchain_core.documents.Document` restricted to the fields the code
sets: `page_content` and the `source` metadata entry. -/
structure Doc where
  page_content : String
  source : String
deriving DecidableEq, Repr

structure FileContent where
  pdfParse : Option (List String)
  docxParse : Option (List String)
  txtRead : String
deriving DecidableEq, Repr

/-- A FastAPI `UploadFile`: filename plus (abstracted) byte content. -/
structure UploadFile where
  filename : String
  content : FileContent
deriving DecidableEq, Repr

/-! ## Document loader (`process_documents`, api.py lines 62-104) -/

/-- `filename.split(".")[-1].lower()` (api.py line 67). -/
def extOf (filename : String) : String :=
  pyLower ⟨(splitOnCharAux '.' filename.data []).getLastD []⟩

/-- `load_docx` (api.py lines 57-59): join all paragraph texts with
newlines. -/
def load_docx (paragraphs : List String) : String :=
  match paragraphs with
  | [] => ""
  | p :: rest => rest.foldl (fun acc q => acc ++ "\n" ++ q) p

/-- The per-page PDF loop (api.py lines 77-79): append a `Document` with the
page text verbatim whenever the stripped text has length `> 5`. -/
def pdfPagesLoop (filename : String) : List String → List Doc → List Doc
  | [], docs => docs
  | p :: rest, docs =>
    pdfPagesLoop filename rest
      (if 5 < (pyStrip p).length then docs ++ [⟨p, filename⟩] else docs)

/-- The `try` body for one file (api.py lines 73-88): dispatch on the
extension, appending this file's documents to the running `docs` list.
`Except.error` is a parser exception propagating out of the `try`. -/
def tryParse (f : UploadFile) (docs : List Doc) : Except String (List Doc) :=
  let ext := extOf f.filename
  if ext = "pdf" then
    match f.content.pdfParse with
    | some pages => .ok (pdfPagesLoop f.filename pages docs)
    | none => .error ("pdf parse failed: " ++ f.filename)
  else if ext = "docx" then
    match f.content.docxParse with
    | some paras => .ok (docs ++ [⟨load_docx paras, f.filename⟩])
    | none => .error ("docx parse failed: " ++ f.filename)
  else if ext = "txt" then
    .ok (docs ++ [⟨f.content.txtRead, f.filename⟩])
  else
    .ok docs

/-- Filesystem events of the temp-file pattern (api.py lines 69-71, 90):
`NamedTemporaryFile(delete=False, suffix=...)` and `os.remove(path)`.
Temp paths are identified by the file's index in the batch. -/
inductive FsEvent where
  | createTemp (idx : Nat) (suffix : String)
  | removeTemp (idx : Nat)
deriving DecidableEq, Repr

/-- One iteration of the file loop: write the temp file, run the `try`
body, and — per the `finally` (api.py line 90) — remove the temp file
whether the body returned or raised. -/
def processOneFile (idx : Nat) (f : UploadFile) (docs : List Doc) :
    List FsEvent × Except String (List Doc) :=
  ([FsEvent.createTemp idx ("." ++ extOf f.filename), FsEvent.removeTemp idx],
   tryParse f docs)

/-- The file loop of `process_documents` (api.py lines 65-90).  A parser
exception aborts the loop (it propagates out of `process_documents`),
after the current file's `finally` has run. -/
def processLoop : List UploadFile → Nat → List Doc →
    List FsEvent × Except String (List Doc)
  | [], _, docs => ([], .ok docs)
  | f :: rest, idx, docs =>
    match processOneFile idx f docs with
    | (evs, .error e) => (evs, .error e)
    | (evs, .ok docs') =>
      let (evs', res) := processLoop rest (idx + 1) docs'
      (evs ++ evs', res)

/-- `f"rag_{int(time.time())}"` (api.py line 101).  `time.time()` is modelled
in integer milliseconds; `int(...)` truncates to whole seconds, i.e.
division by 1000. -/
def collection_name (nowMs : Nat) : String :=
  "rag_" ++ pyIntStr (nowMs / 1000)

/-- Outcome of `process_documents`: a propagating exception, the `None`
return of the `if not docs` branch (api.py lines 92-93), or a built Chroma
index (api.py lines 95-104) abstracted by its collection name and the
loaded documents handed to the splitter. -/
inductive ProcessOutcome where
  | raised (msg : String)
  | noDocs
  | indexed (collectionName : String) (docs : List Doc)
deriving DecidableEq, Repr

/-- `process_documents` (api.py lines 62-104), with the filesystem event
trace made explicit. -/
def process_documents (files : List UploadFile) (nowMs : Nat) :
    List FsEvent × ProcessOutcome :=
  match processLoop files 0 [] with
  | (evs, .error e) => (evs, .raised e)
  | (evs, .ok docs) =>
    if docs = [] then (evs, .noDocs)
    else (evs, .indexed (collection_name nowMs) docs)

/-! ## RAG pipeline configuration (`build_rag`, api.py lines 107-186)

`build_rag` wires a retriever (`k = 4`), a prompt whose system message embeds
the per-profile instruction template, and a `ChatOllama` model whose
temperature depends on the profile.  The chain itself only feeds these
parameters to external services, so we embed the parameters it selects. -/

/-- The `answer_instructions` dict (api.py lines 111-135), in insertion
order, with the exact Python triple-quoted contents. -/
def answer_instructions : List (String × String) :=
  [("Short (2 Marks)",
    "\n        Provide a brief, concise answer (2-3 sentences).\n        Focus on the key point only.\n        Suitable for 2-mark questions.\n        "),
   ("Medium (5 Marks)",
    "\n        Provide a moderate length answer (1 paragraph, 5-7 sentences).\n        Include main points with brief explanations.\n        Suitable for 5-mark questions.\n        "),
   ("Detailed (10 Marks)",
    "\n        Provide a comprehensive, detailed answer (2-3 paragraphs).\n        Include definitions, explanations, examples, and important points.\n        Use bullet points or numbered lists where appropriate.\n        Suitable for 10-mark questions.\n        "),
   ("Viva/Interview",
    "\n        Provide a SHORT, conversational answer (3-5 sentences maximum).\n        Answer naturally as if speaking in an interview - be direct and to the point.\n        Include ONE practical example or real-world application if relevant.\n        Keep it brief and confident - viva answers should be spoken in 30-45 seconds.\n        Do NOT write lengthy explanations.\n        ")]

/-- `answer_instructions.get(answer_type, answer_instructions["Short (2 Marks)"])`
(api.py line 137). -/
def instructionFor (answer_type : String) : String :=
  (answer_instructions.lookup answer_type).getD
    ((answer_instructions.lookup "Short (2 Marks)").getD "")

/-- The parameters `build_rag` hands to external services: retriever top-k,
the instruction template embedded in the system prompt, the LLM temperature
and model name. -/
structure RagConfig where
  k : Nat
  instruction : String
  temperature : ℚ
  model : String
deriving DecidableEq, Repr

/-- `build_rag` (api.py lines 107-165), abstracted to the configuration it
selects; the vector store is threaded separately to the chain oracle. -/
def build_rag (answer_type : String) : RagConfig :=
  { k := 4
    instruction := instructionFor answer_type
    temperature := if answer_type = "Viva/Interview" then 0.1 else 0.2
    model := "mistral" }

/-! ## Session store and endpoints (api.py lines 33, 194-265) -/

/-- One entry of the `sessions` dict (api.py lines 203-206): the vector
store (abstracted by collection name and indexed documents) and the
accumulated chat history of `(role, content)` pairs. -/
structure Session where
  collectionName : String
  docs : List Doc
  chat_history : List (String × String)
deriving DecidableEq, Repr

/-- The in-memory `sessions` dict, as a partial map. -/
abbrev Sessions : Type := String → Option Session

def emptySessions : Sessions := fun _ => none

/-- A FastAPI `HTTPException`, by status code and detail. -/
structure HTTPError where
  status_code : Nat
  detail : String
deriving DecidableEq, Repr

/-- An exception reaching an `except Exception` handler: either an
`HTTPException` — which subclasses `Exception`, so those handlers catch it
too — or any other exception, carrying its message. -/
inductive PyExc where
  | http (status_code : Nat) (detail : String)
  | generic (msg : String)
deriving DecidableEq, Repr

/-- Python `str(e)`: Starlette renders an `HTTPException` as
`"{status_code}: {detail}"`; for other exceptions the message. -/
def PyExc.str : PyExc → String
  | .http s d => pyIntStr s ++ ": " ++ d
  | .generic m => m

structure SessionResponse where
  session_id : String
  message : String
deriving DecidableEq, Repr

structure ChatMessage where
  role : String
  content : String
deriving DecidableEq, Repr

structure ChatRequest where
  session_id : String
  question : String
  chat_history : List ChatMessage
  answer_type : String
deriving DecidableEq, Repr

structure ChatResponse where
  answer : String
  session_id : String
deriving DecidableEq, Repr

/-- LangChain message objects built from the request history. -/
inductive LCMessage where
  | human (content : String)
  | ai (content : String)
deriving DecidableEq, Repr

/-- The history conversion loop (api.py lines 226-231): role `"user"`
becomes `HumanMessage`, anything else `AIMessage`. -/
def convertHistory (msgs : List ChatMessage) : List LCMessage :=
  msgs.map fun m => if m.role = "user" then .human m.content else .ai m.content

/-- `upload_files` (api.py lines 194-213).  `newId` is the fresh
`uuid.uuid4()` value.  The whole body runs under `try`, whose
`except Exception` clause also catches the `HTTPException(400)` raised for
the no-content case — `HTTPException` subclasses `Exception` — and replaces
it with `HTTPException(500, str(e))`. -/
def upload_files (st : Sessions) (files : List UploadFile) (nowMs : Nat)
    (newId : String) : Except HTTPError SessionResponse × Sessions :=
  let tryBody : Except PyExc (SessionResponse × Sessions) :=
    match (process_documents files nowMs).2 with
    | .raised e => .error (.generic e)
    | .noDocs => .error (.http 400 "No valid documents processed")
    | .indexed coll docs =>
      .ok (⟨newId, "Documents indexed successfully"⟩,
        fun k => if k = newId then some ⟨coll, docs, []⟩ else st k)
  match tryBody with
  | .ok (resp, st') => (.ok resp, st')
  | .error e => (.error ⟨500, e.str⟩, st)

/-- Oracle for the composed RAG chain (`create_chain_input | prompt | llm`):
given the selected configuration, the session's indexed documents, the
question and the converted history, the retrieval + LLM round trip either
returns the answer text or raises. -/
abbrev RagInvoke : Type :=
  RagConfig → List Doc → String → List LCMessage → Except String String

/-- `chat` (api.py lines 215-252).  The session check precedes the `try`,
so an unknown id raises a genuine 404; inside the `try`, a chain failure
becomes `HTTPException(500, str(e))`, and on success the user and assistant
turns are appended to the stored history before returning. -/
def chat (invoke : RagInvoke) (st : Sessions) (req : ChatRequest) :
    Except HTTPError ChatResponse × Sessions :=
  match st req.session_id with
  | none => (.error ⟨404, "Session not found"⟩, st)
  | some session =>
    match invoke (build_rag req.answer_type) session.docs req.question
        (convertHistory req.chat_history) with
    | .error e => (.error ⟨500, e⟩, st)
    | .ok answer =>
      (.ok ⟨answer, req.session_id⟩,
       fun k =>
         if k = req.session_id then
           some { session with chat_history := session.chat_history
             ++ [("user", req.question), ("assistant", answer)] }
         else st k)

/-- `delete_session` (api.py lines 254-260). -/
def delete_session (st : Sessions) (sid : String) :
    Except HTTPError String × Sessions :=
  if (st sid).isSome then
    (.ok "Session deleted", fun k => if k = sid then none else st k)
  else
    (.error ⟨404, "Session not found"⟩, st)

deriving instance DecidableEq for Except

/-! ## Concrete inputs used by witnesses and counterexamples -/

/-- An unsupported-extension upload. -/
def mdFile : UploadFile := ⟨"notes.md", ⟨none, none, ""⟩⟩

/-- A zero-byte `.txt` upload: reading it yields the empty string. -/
def emptyTxt : UploadFile := ⟨"empty.txt", ⟨none, none, ""⟩⟩

/-- A well-formed `.txt` upload. -/
def helloTxt : UploadFile := ⟨"notes.txt", ⟨none, none, "hello world"⟩⟩

/-- A `.pdf` upload on which the PDF parser raises. -/
def badPdf : UploadFile := ⟨"bad.pdf", ⟨none, none, ""⟩⟩

/-- A `.pdf` upload whose pages all strip to at most 5 characters. -/
def blankPdf : UploadFile := ⟨"scan.pdf", ⟨some ["   ", "abc"], none, ""⟩⟩

/-- A session store holding one session under id `"s1"`. -/
def oneSessionStore : Sessions :=
  fun k =>
    if k = "s1" then some ⟨"rag_1700000000", [⟨"hello world", "notes.txt"⟩], []⟩
    else none

/-- A chain oracle that always answers `"Paris"`. -/
def invokeOk : RagInvoke := fun _ _ _ _ => .ok "Paris"

/-- A chain oracle that always raises. -/
def invokeErr : RagInvoke := fun _ _ _ _ => .error "ollama connection refused"

/-! ## Loop characterizations -/

theorem pdfPagesLoop_eq (filename : String) (pages : List String) :
    ∀ docs : List Doc, pdfPagesLoop filename pages docs
      = docs ++ (pages.filter fun p => 5 < (pyStrip p).length).map
          fun p => (⟨p, filename⟩ : Doc) := by
  induction pages with
  | nil => intro docs; simp [pdfPagesLoop]
  | cons p rest ih =>
    intro docs
    by_cases hp : 5 < (pyStrip p).length
    · simp [pdfPagesLoop, hp, ih]
    · simp [pdfPagesLoop, hp, ih]

theorem tryParse_unsupported (f : UploadFile)
    (h1 : extOf f.filename ≠ "pdf") (h2 : extOf f.filename ≠ "docx")
    (h3 : extOf f.filename ≠ "txt") (docs : List Doc) :
    tryParse f docs = .ok docs := by
  simp [tryParse, h1, h2, h3]

theorem processLoop_snd_idx (files : List UploadFile) :
    ∀ (idx idx' : Nat) (docs : List Doc),
      (processLoop files idx docs).2 = (processLoop files idx' docs).2 := by
  induction files with
  | nil => intro idx idx' docs; rfl
  | cons f rest ih =>
    intro idx idx' docs
    simp only [processLoop, processOneFile]
    cases tryParse f docs with
    | error e => rfl
    | ok docs' => simpa using ih (idx + 1) (idx' + 1) docs'

theorem processLoop_cons_error (f : UploadFile) (docs : List Doc) (e : String)
    (h : tryParse f docs = .error e) (rest : List UploadFile) (idx : Nat) :
    processLoop (f :: rest) idx docs
      = ([FsEvent.createTemp idx ("." ++ extOf f.filename), FsEvent.removeTemp idx],
         .error e) := by
  unfold processLoop processOneFile
  rw [h]

theorem processLoop_cons_ok (f : UploadFile) (docs docs' : List Doc)
    (h : tryParse f docs = .ok docs') (rest : List UploadFile) (idx : Nat) :
    processLoop (f :: rest) idx docs
      = ([FsEvent.createTemp idx ("." ++ extOf f.filename), FsEvent.removeTemp idx]
           ++ (processLoop rest (idx + 1) docs').1,
         (processLoop rest (idx + 1) docs').2) := by
  conv_lhs => unfold processLoop processOneFile
  rw [h]

theorem processLoop_append (xs ys : List UploadFile) :
    ∀ (idx : Nat) (docs : List Doc),
      (processLoop (xs ++ ys) idx docs).2
        = match (processLoop xs idx docs).2 with
          | .error e => .error e
          | .ok d => (processLoop ys (idx + xs.length) d).2 := by
  induction xs with
  | nil => intro idx docs; rfl
  | cons f rest ih =>
    intro idx docs
    rw [List.cons_append]
    cases htp : tryParse f docs with
    | error e =>
      rw [processLoop_cons_error f docs e htp (rest ++ ys) idx,
        processLoop_cons_error f docs e htp rest idx]
    | ok docs' =>
      rw [processLoop_cons_ok f docs docs' htp (rest ++ ys) idx,
        processLoop_cons_ok f docs docs' htp rest idx]
      show (processLoop (rest ++ ys) (idx + 1) docs').2 = _
      rw [ih (idx + 1) docs']
      cases hres : (processLoop rest (idx + 1) docs').2 with
      | error e => rfl
      | ok d =>
        show (processLoop ys (idx + 1 + rest.length) d).2
          = (processLoop ys (idx + (f :: rest).length) d).2
        rw [processLoop_snd_idx ys (idx + 1 + rest.length) (idx + (f :: rest).length) d]

theorem processLoop_all_unsupported (files : List UploadFile)
    (h : ∀ f ∈ files, extOf f.filename ≠ "pdf" ∧ extOf f.filename ≠ "docx"
      ∧ extOf f.filename ≠ "txt") :
    ∀ (idx : Nat) (docs : List Doc), (processLoop files idx docs).2 = .ok docs := by
  induction files with
  | nil => intro idx docs; rfl
  | cons f rest ih =>
    intro idx docs
    have hf := h f (by simp)
    rw [processLoop_cons_ok f docs docs (tryParse_unsupported f hf.1 hf.2.1 hf.2.2 docs)
      rest idx]
    exact ih (fun g hg => h g (by simp [hg])) (idx + 1) docs

theorem processLoop_removes_every_temp (files : List UploadFile) :
    ∀ (idx : Nat) (docs : List Doc) (j : Nat) (s : String),
      FsEvent.createTemp j s ∈ (processLoop files idx docs).1 →
      FsEvent.removeTemp j ∈ (processLoop files idx docs).1 := by
  induction files with
  | nil => intro idx docs j s h; simp [processLoop] at h
  | cons f rest ih =>
    intro idx docs j s h
    cases htp : tryParse f docs with
    | error e =>
      rw [processLoop_cons_error f docs e htp rest idx] at h ⊢
      simp only [List.mem_cons, List.not_mem_nil, or_false] at h ⊢
      rcases h with h | h
      · obtain ⟨rfl, -⟩ := FsEvent.createTemp.inj h
        exact Or.inr rfl
      · exact absurd h (by simp)
    | ok docs' =>
      rw [processLoop_cons_ok f docs docs' htp rest idx] at h ⊢
      simp only [List.mem_append, List.mem_cons, List.not_mem_nil, or_false] at h ⊢
      rcases h with (h | h) | h
      · obtain ⟨rfl, -⟩ := FsEvent.createTemp.inj h
        exact Or.inl (Or.inr rfl)
      · exact absurd h (by simp)
      · exact Or.inr (ih (idx + 1) docs' j s h)

theorem chat_found (invoke : RagInvoke) (st : Sessions) (req : ChatRequest)
    (session : Session) (hs : st req.session_id = some session) :
    chat invoke st req
      = match invoke (build_rag req.answer_type) session.docs req.question
          (convertHistory req.chat_history) with
        | .error e => (.error ⟨500, e⟩, st)
        | .ok answer =>
          (.ok ⟨answer, req.session_id⟩,
           fun k =>
             if k = req.session_id then
               some { session with chat_history := session.chat_history
                 ++ [("user", req.question), ("assistant", answer)] }
             else st k) := by
  unfold chat
  rw [hs]

/-! ## Claim theorems -/

/-- C1: a batch yielding zero usable chunks is meant to fail with a
client-facing 400 "No valid documents processed"; but because FastAPI's
`HTTPException` subclasses `Exception`, the handler's catch-all
`except Exception` intercepts the 400 and re-raises it as a 500 whose
detail is `str(e)`.  Evaluated at an all-blank-page PDF batch: the
no-content condition is hit, yet the client receives a 500, not a 400. -/
theorem c1_no_content_surfaces_as_500 :
    (process_documents [blankPdf] 1700000000400).2 = ProcessOutcome.noDocs
    ∧ (upload_files emptySessions [blankPdf] 1700000000400 "sid-1").1
        = .error ⟨500, "400: No valid documents processed"⟩
    ∧ (upload_files emptySessions [blankPdf] 1700000000400 "sid-1").2
        = emptySessions :=
  ⟨by decide, by decide, rfl⟩

/-- C2 counterexample: a batch consisting of one empty `.txt` file is NOT
rejected by the no-content branch — the txt path appends a document with
empty `page_content`, so `docs` is non-empty and `process_documents`
proceeds to the indexing step. -/
theorem c2_counterexample_empty_txt_not_rejected :
    (process_documents [emptyTxt] 1700000000400).2
      = ProcessOutcome.indexed "rag_1700000000" [⟨"", "empty.txt"⟩] := by
  decide

/-- C2 amended: for every upload batch in which every file has an
unsupported extension, the loader yields zero documents, the no-content
branch is taken (the batch is rejected wholesale — surfaced, per the
handler's catch-all, as a 500 wrapping the 400 detail), no session is
created, and indexing is never reached. -/
theorem c2_amended_all_unsupported_no_content (files : List UploadFile)
    (h : ∀ f ∈ files, extOf f.filename ≠ "pdf" ∧ extOf f.filename ≠ "docx"
      ∧ extOf f.filename ≠ "txt")
    (nowMs : Nat) (st : Sessions) (newId : String) :
    (process_documents files nowMs).2 = ProcessOutcome.noDocs
    ∧ (upload_files st files nowMs newId).1
        = .error ⟨500, "400: No valid documents processed"⟩
    ∧ (upload_files st files nowMs newId).2 = st := by
  have hloop := processLoop_all_unsupported files h 0 []
  have hpair : processLoop files 0 []
      = ((processLoop files 0 []).1, (.ok [] : Except String (List Doc))) := by
    rw [← hloop]
  have hpd : (process_documents files nowMs).2 = ProcessOutcome.noDocs := by
    unfold process_documents
    rw [hpair]
    rfl
  refine ⟨hpd, ?_, ?_⟩
  · unfold upload_files
    rw [hpd]
    rfl
  · unfold upload_files
    rw [hpd]

/-- C2 witness: the amended claim at a concrete all-unsupported batch. -/
theorem c2_amended_witness :
    (process_documents [mdFile] 1700000000400).2 = ProcessOutcome.noDocs
    ∧ (upload_files emptySessions [mdFile] 1700000000400 "sid-1").1
        = .error ⟨500, "400: No valid documents processed"⟩
    ∧ (upload_files emptySessions [mdFile] 1700000000400 "sid-1").2
        = emptySessions :=
  c2_amended_all_unsupported_no_content [mdFile] (by decide) 1700000000400
    emptySessions "sid-1"

/-- C3 counterexample: two separate uploads 500 ms apart fall in the same
whole second, so `int(time.time())` is identical and both sessions receive
the same collection name `rag_1700000000`. -/
theorem c3_counterexample_same_second_collision :
    (1700000000200 : Nat) ≠ 1700000000700
    ∧ collection_name 1700000000200 = collection_name 1700000000700
    ∧ (process_documents [helloTxt] 1700000000200).2
        = ProcessOutcome.indexed "rag_1700000000" [⟨"hello world", "notes.txt"⟩]
    ∧ (process_documents [helloTxt] 1700000000700).2
        = ProcessOutcome.indexed "rag_1700000000" [⟨"hello world", "notes.txt"⟩] :=
  ⟨by decide, by decide, by decide, by decide⟩

/-- C3 amended: collection names are unique exactly across whole seconds —
two sessions whose creation timestamps truncate to different whole seconds
receive distinct collection names (sessions created within the same whole
second share one). -/
theorem c3_amended_distinct_seconds_unique (t₁ t₂ : Nat)
    (h : t₁ / 1000 ≠ t₂ / 1000) : collection_name t₁ ≠ collection_name t₂ := by
  intro hc
  apply h
  apply pyIntStr_injective
  apply string_data_inj
  have hdata := congrArg String.data hc
  exact List.append_cancel_left
    (hdata : "rag_".data ++ (pyIntStr (t₁ / 1000)).data
      = "rag_".data ++ (pyIntStr (t₂ / 1000)).data)

/-- C3 amended witness: timestamps in different whole seconds give
distinct names. -/
theorem c3_amended_witness :
    (1000 : Nat) / 1000 ≠ 2000 / 1000
    ∧ collection_name 1000 ≠ collection_name 2000 :=
  ⟨by decide, c3_amended_distinct_seconds_unique 1000 2000 (by decide)⟩

/-- C4: chatting against a session id absent from the store — which after
`delete_session` includes any deleted id, since the store maps it to
`none` — returns the 404 "Session not found" error, leaves the store
unchanged, and never invokes the RAG chain (the result is identical for
every chain oracle). -/
theorem c4_unknown_session_404 (st : Sessions) (req : ChatRequest)
    (invoke invoke' : RagInvoke) (h : st req.session_id = none)
    (st' : Sessions) (sid : String) :
    chat invoke st req = (.error ⟨404, "Session not found"⟩, st)
    ∧ chat invoke st req = chat invoke' st req
    ∧ (delete_session st' sid).2 sid = none := by
  refine ⟨?_, ?_, ?_⟩
  · unfold chat
    rw [h]
  · unfold chat
    rw [h]
  · unfold delete_session
    cases hso : st' sid with
    | none =>
      rw [if_neg (by simp [hso])]
      exact hso
    | some s =>
      rw [if_pos (by simp [hso])]
      simp

/-- C4 witness: a fresh store 404s, independent of the oracle, and a
deleted id is gone from the store. -/
theorem c4_witness :
    chat invokeOk emptySessions ⟨"ghost", "q", [], "Short (2 Marks)"⟩
      = (.error ⟨404, "Session not found"⟩, emptySessions)
    ∧ chat invokeOk emptySessions ⟨"ghost", "q", [], "Short (2 Marks)"⟩
      = chat invokeErr emptySessions ⟨"ghost", "q", [], "Short (2 Marks)"⟩
    ∧ (delete_session oneSessionStore "s1").2 "s1" = none :=
  c4_unknown_session_404 emptySessions ⟨"ghost", "q", [], "Short (2 Marks)"⟩
    invokeOk invokeErr rfl oneSessionStore "s1"

/-- C5: a PDF page becomes a document exactly when its stripped text has
length greater than 5, and a kept page's text is carried over verbatim as
the document's `page_content`, tagged with the source filename. -/
theorem c5_pdf_page_kept_iff_strip_gt5 (filename : String) (pages : List String)
    (d : Doc) :
    d ∈ pdfPagesLoop filename pages []
      ↔ ∃ p ∈ pages, 5 < (pyStrip p).length ∧ d = ⟨p, filename⟩ := by
  rw [pdfPagesLoop_eq]
  simp only [List.nil_append, List.mem_map, List.mem_filter, decide_eq_true_eq]
  constructor
  · rintro ⟨p, ⟨hp, hlen⟩, rfl⟩
    exact ⟨p, hp, hlen, rfl⟩
  · rintro ⟨p, hp, hlen, rfl⟩
    exact ⟨p, ⟨hp, hlen⟩, rfl⟩

/-- C6: a file whose (case-insensitively matched) extension is none of
pdf/docx/txt contributes zero documents and raises no error, and the rest
of the batch produces the same result as if the file were absent. -/
theorem c6_unsupported_extension_ignored (f : UploadFile)
    (h1 : extOf f.filename ≠ "pdf") (h2 : extOf f.filename ≠ "docx")
    (h3 : extOf f.filename ≠ "txt") (pre post : List UploadFile)
    (idx idx' : Nat) (docs : List Doc) :
    tryParse f docs = .ok docs
    ∧ (processLoop (pre ++ f :: post) idx docs).2
        = (processLoop (pre ++ post) idx' docs).2 := by
  refine ⟨tryParse_unsupported f h1 h2 h3 docs, ?_⟩
  rw [processLoop_append pre (f :: post) idx docs,
    processLoop_append pre post idx' docs,
    processLoop_snd_idx pre idx idx' docs]
  cases hres : (processLoop pre idx' docs).2 with
  | error e => rfl
  | ok d =>
    show (processLoop (f :: post) (idx + pre.length) d).2
      = (processLoop post (idx' + pre.length) d).2
    rw [processLoop_cons_ok f d d (tryParse_unsupported f h1 h2 h3 d) post
      (idx + pre.length)]
    exact processLoop_snd_idx post (idx + pre.length + 1) (idx' + pre.length) d

/-- C6 witness: a `.md` file amid two txt files is skipped without error. -/
theorem c6_witness :
    tryParse mdFile [] = .ok []
    ∧ (processLoop [helloTxt, mdFile, emptyTxt] 0 []).2
        = (processLoop [helloTxt, emptyTxt] 5 []).2 :=
  c6_unsupported_extension_ignored mdFile (by decide) (by decide) (by decide)
    [helloTxt] [emptyTxt] 0 5 []

/-- C7: `build_rag` selects model temperature 0.1 for the "Viva/Interview"
profile and 0.2 for every other profile string. -/
theorem c7_temperature_by_profile (t : String) (h : t ≠ "Viva/Interview") :
    (build_rag "Viva/Interview").temperature = 0.1
    ∧ (build_rag t).temperature = 0.2 := by
  constructor
  · rfl
  · simp only [build_rag]
    rw [if_neg h]

/-- C7 witness: the two temperatures at concrete profiles. -/
theorem c7_witness :
    (build_rag "Viva/Interview").temperature = 0.1
    ∧ (build_rag "Detailed (10 Marks)").temperature = 0.2 :=
  c7_temperature_by_profile "Detailed (10 Marks)" (by decide)

/-- C8: every temp file created by the loader's file loop is removed —
whatever `tryParse` does (parse success, unsupported extension, or a raised
parser exception that aborts the batch), the event trace pairs each
`createTemp` with a `removeTemp` of the same path, and each single file
step always emits its `removeTemp`. -/
theorem c8_temp_file_removed_on_all_paths (files : List UploadFile) (idx : Nat)
    (docs : List Doc) (j : Nat) (s : String)
    (h : FsEvent.createTemp j s ∈ (processLoop files idx docs).1) :
    FsEvent.removeTemp j ∈ (processLoop files idx docs).1
    ∧ ∀ (f : UploadFile) (k : Nat) (ds : List Doc),
        FsEvent.removeTemp k ∈ (processOneFile k f ds).1 :=
  ⟨processLoop_removes_every_temp files idx docs j s h,
   fun f k ds => by simp [processOneFile]⟩

/-- C8 witness: a batch whose single PDF raises still removes its temp
file. -/
theorem c8_witness :
    FsEvent.createTemp 0 ".pdf" ∈ (processLoop [badPdf] 0 []).1
    ∧ FsEvent.removeTemp 0 ∈ (processLoop [badPdf] 0 []).1 :=
  ⟨by decide,
   (c8_temp_file_removed_on_all_paths [badPdf] 0 [] 0 ".pdf" (by decide)).1⟩

/-- C9: the stored history grows by the user turn then the assistant turn
only when the chain invocation succeeds; when it raises, the chat request
returns the 500 wrapper and the whole store — in particular the session's
history — is exactly as before. -/
theorem c9_history_append_atomicity (invoke : RagInvoke) (st : Sessions)
    (req : ChatRequest) (session : Session)
    (hs : st req.session_id = some session) :
    (∀ e, invoke (build_rag req.answer_type) session.docs req.question
        (convertHistory req.chat_history) = .error e →
      chat invoke st req = (.error ⟨500, e⟩, st))
    ∧ ∀ ans, invoke (build_rag req.answer_type) session.docs req.question
        (convertHistory req.chat_history) = .ok ans →
      (chat invoke st req).1 = .ok ⟨ans, req.session_id⟩
      ∧ (chat invoke st req).2 req.session_id
          = some { session with chat_history := session.chat_history
              ++ [("user", req.question), ("assistant", ans)] }
      ∧ ∀ k, k ≠ req.session_id → (chat invoke st req).2 k = st k := by
  constructor
  · intro e he
    rw [chat_found invoke st req session hs, he]
  · intro ans ha
    refine ⟨?_, ?_, ?_⟩
    · rw [chat_found invoke st req session hs, ha]
    · rw [chat_found invoke st req session hs, ha]
      simp
    · intro k hk
      rw [chat_found invoke st req session hs, ha]
      simp [hk]

/-- C9 witness: a failing oracle leaves the store untouched; a succeeding
one appends the user and assistant turns in order. -/
theorem c9_witness :
    chat invokeErr oneSessionStore
        ⟨"s1", "What is the capital of France?", [], "Short (2 Marks)"⟩
      = (.error ⟨500, "ollama connection refused"⟩, oneSessionStore)
    ∧ (chat invokeOk oneSessionStore
        ⟨"s1", "What is the capital of France?", [], "Short (2 Marks)"⟩).1
      = .ok ⟨"Paris", "s1"⟩
    ∧ (chat invokeOk oneSessionStore
        ⟨"s1", "What is the capital of France?", [], "Short (2 Marks)"⟩).2 "s1"
      = some ⟨"rag_1700000000", [⟨"hello world", "notes.txt"⟩],
          [("user", "What is the capital of France?"), ("assistant", "Paris")]⟩ :=
  ⟨(c9_history_append_atomicity invokeErr oneSessionStore
      ⟨"s1", "What is the capital of France?", [], "Short (2 Marks)"⟩
      ⟨"rag_1700000000", [⟨"hello world", "notes.txt"⟩], []⟩ (by decide)).1
      "ollama connection refused" rfl,
   ((c9_history_append_atomicity invokeOk oneSessionStore
      ⟨"s1", "What is the capital of France?", [], "Short (2 Marks)"⟩
      ⟨"rag_1700000000", [⟨"hello world", "notes.txt"⟩], []⟩ (by decide)).2
      "Paris" rfl).1,
   ((c9_history_append_atomicity invokeOk oneSessionStore
      ⟨"s1", "What is the capital of France?", [], "Short (2 Marks)"⟩
      ⟨"rag_1700000000", [⟨"hello world", "notes.txt"⟩], []⟩ (by decide)).2
      "Paris" rfl).2.1⟩

/-- C10: an `answer_type` outside the four named profiles is not rejected —
the prompt composer falls back to the "Short (2 Marks)" instruction
template, the temperature is 0.2, and the chat request behaves exactly as
if the profile were "Short (2 Marks)". -/
theorem c10_unknown_profile_short_fallback (t : String)
    (h1 : t ≠ "Short (2 Marks)") (h2 : t ≠ "Medium (5 Marks)")
    (h3 : t ≠ "Detailed (10 Marks)") (h4 : t ≠ "Viva/Interview") :
    instructionFor t = instructionFor "Short (2 Marks)"
    ∧ (build_rag t).temperature = 0.2
    ∧ build_rag t = build_rag "Short (2 Marks)"
    ∧ ∀ (invoke : RagInvoke) (st : Sessions) (req : ChatRequest),
        req.answer_type = t →
        chat invoke st req
          = chat invoke st { req with answer_type := "Short (2 Marks)" } := by
  have k1 : (t == "Short (2 Marks)") = false := beq_eq_false_iff_ne.mpr h1
  have k2 : (t == "Medium (5 Marks)") = false := beq_eq_false_iff_ne.mpr h2
  have k3 : (t == "Detailed (10 Marks)") = false := beq_eq_false_iff_ne.mpr h3
  have k4 : (t == "Viva/Interview") = false := beq_eq_false_iff_ne.mpr h4
  have hinstr : instructionFor t = instructionFor "Short (2 Marks)" := by
    simp [instructionFor, answer_instructions, List.lookup, k1, k2, k3, k4]
  have hbr : build_rag t = build_rag "Short (2 Marks)" := by
    simp [build_rag, hinstr, h4]
  refine ⟨hinstr, ?_, hbr, ?_⟩
  · simp only [build_rag]
    rw [if_neg h4]
  · intro invoke st req hreq
    unfold chat
    rw [hreq, hbr]

/-- C10 witness: the profile string "Essay" falls back to the Short
template with temperature 0.2 and chats exactly like "Short (2 Marks)". -/
theorem c10_witness :
    instructionFor "Essay" = instructionFor "Short (2 Marks)"
    ∧ (build_rag "Essay").temperature = 0.2
    ∧ build_rag "Essay" = build_rag "Short (2 Marks)"
    ∧ chat invokeOk oneSessionStore ⟨"s1", "q", [], "Essay"⟩
        = chat invokeOk oneSessionStore ⟨"s1", "q", [], "Short (2 Marks)"⟩ :=
  ⟨(c10_unknown_profile_short_fallback "Essay" (by decide) (by decide) (by decide)
      (by decide)).1,
   (c10_unknown_profile_short_fallback "Essay" (by decide) (by decide) (by decide)
      (by decide)).2.1,
   (c10_unknown_profile_short_fallback "Essay" (by decide) (by decide) (by decide)
      (by decide)).2.2.1,
   (c10_unknown_profile_short_fallback "Essay" (by decide) (by decide) (by decide)
      (by decide)).2.2.2 invokeOk oneSessionStore ⟨"s1", "q", [], "Essay"⟩ rfl⟩

end RagApi
